import Mathlib

/-!
# Verification of the hotspot audio playback engine of `ReaderView.tsx`

This file is a shallow embedding, in Lean 4, of the playback engine
implemented in `src/src/components/ReaderView.tsx` (a React function
component using Howler audio):

* the audio-sprite index built in `loadPdf` (lines 620-631),
* the audio-file resolution and normal-mode playback in `playHotspotAudio`
  (lines 712-738),
* the tap dispatcher `handleHotspotClick` (lines 740-807),
* the connected-reading queue `handleNextInQueue` (lines 703-709) and the
  Howl `onend` handler (lines 650-667),
* the repeat-loop machinery: `startRepeatMode`, `exitRepeatMode`,
  `pauseRepeat`, `resumeRepeat`, `startRepeatPlayback` and its inner
  `playSegment` (lines 820-949).

The component is a React function component, so its semantics mixes three
kinds of cells that the embedding keeps distinct:

* **live React state** (`useState` values as seen by the *next* render) —
  plain fields of `EngineState`;
* **refs** (`useRef` cells, always read live) — also fields of
  `EngineState` (`currentTimeoutId`, `repeatHowlRef`);
* **closure captures**: a callback created during some render reads the
  `useState` values *of that render*, not the live ones.  Event handlers
  invoked by a user tap come from the latest render, so they read the live
  state; but timer callbacks and Howl event handlers keep the snapshot
  captured when they were created.  The embedding therefore stores, inside
  every scheduled task, the captured values that the source closure reads
  (`Snap`, `SegClosure`, the captured queue of `handleNextInQueue`).

Timers are modelled by a queue of pending tasks with identifiers;
`clearTimeout` removes the task whose identifier is held in the ref.
JavaScript quirks that the source relies on are modelled explicitly:
`||` falsiness on strings (empty string falls through), `undefined`
arithmetic producing `NaN` (whose comparison with `0` is false).

Rational numbers stand in for the JS doubles; every concrete time in the
source data (seconds, e.g. `2.0`, `4.5`) is exactly representable.
-/

namespace TouchRead

/-- JS truthiness of an optional string value: `undefined`, `null` and the
empty string are falsy. -/
def truthyStr : Option String → Bool
  | none => false
  | some s => s != ""

/-- JS `a || b` on optional strings. -/
def jsOrStr (a b : Option String) : Option String :=
  if truthyStr a then a else b

/-- A hotspot as loaded from the book JSON.  All fields except the
geometry (irrelevant to playback) are kept; any of them may be absent in
the raw data, which the source checks with `!== undefined` / truthiness. -/
structure Hotspot where
  id : Option String
  audioFile : Option String
  audioStart : Option ℚ
  audioEnd : Option ℚ
  deriving DecidableEq, Repr

/-- The book data consumed by the engine: the optional book-level
`audioFile` fallback and the hotspot list. -/
structure Book where
  audioFile : Option String
  hotspots : List Hotspot
  deriving DecidableEq, Repr

/-! ## Audio-file resolution (`playHotspotAudio` lines 716-720,
`startRepeatPlayback` lines 882-888)

`const audioFileName = hotspot.audioFile || bookData?.audioFile;`
`if (!audioFileName) return;`
-/

/-- The audio file name an activation resolves to: the hotspot's own
`audioFile` if truthy, else the book-level `audioFile`; `none` when the
result is still falsy (the `if (!audioFileName)` early return). -/
def resolvedName (book : Book) (h : Hotspot) : Option String :=
  let r := jsOrStr h.audioFile book.audioFile
  if truthyStr r then r else none

/-! ## The audio-sprite index (`loadPdf` lines 620-631)

For each successfully loaded audio file the source builds
`sprites[hotspot.id] = [audioStart*1000, (audioEnd-audioStart)*1000]`
over the hotspots that reference the file by name, have a truthy `id`
and both time fields, skipping entries with non-positive duration.
Later assignments to the same key overwrite earlier ones, which the
embedding realises by prepending and looking up the first match. -/

/-- One `forEach` step of the sprite construction: prepend the written
entry (JS object assignment overwrites, so lookup takes the first, i.e.
latest, binding). -/
def spriteStep (audioFileName : String) (acc : List (String × ℚ × ℚ))
    (h : Hotspot) : List (String × ℚ × ℚ) :=
  match h.audioFile, h.id, h.audioStart, h.audioEnd with
  | some f, some i, some s, some e =>
    if f = audioFileName ∧ (i != "") then
      let startTime := s * 1000
      let duration := (e - s) * 1000
      if 0 < duration then (i, startTime, duration) :: acc else acc
    else acc
  | _, _, _, _ => acc

/-- The sprite map built for one loaded audio file. -/
def spritesFor (hotspots : List Hotspot) (audioFileName : String) :
    List (String × ℚ × ℚ) :=
  hotspots.foldl (spriteStep audioFileName) []

/-- Lookup in a sprite map (JS property access; first entry is the most
recent assignment). -/
def spriteLookup (sprites : List (String × ℚ × ℚ)) (i : String) :
    Option (ℚ × ℚ) :=
  (sprites.find? (fun p => p.1 = i)).map Prod.snd

/-! ## The dynamic engine state

The runtime world of the component: live React state, refs, the loaded
shared Howl instances (one per audio file, each either idle or playing a
sprite), the ephemeral repeat Howl instances, and the queue of pending
asynchronous callbacks (timers and Howl events). -/

/-- Lifecycle of an ephemeral repeat Howl (`new Howl` inside
`playSegment`): created (decoding), playing from a seek position, paused,
or unloaded.  The seek position is optional because `howl.seek(startTime)`
receives whatever `startHotspot.audioStart` was (possibly `undefined`). -/
inductive EphStatus
  | loading
  | playing (pos : Option ℚ)
  | paused (pos : Option ℚ)
  | unloaded
  deriving DecidableEq, Repr

/-- The `useState` values a render closure captures and that the repeat
machinery later reads inside delayed callbacks: `isRepeatMode` and
`repeatPaused` (read by `playSegment`, line 903). -/
structure Snap where
  isRepeatMode : Bool
  repeatPaused : Bool
  deriving DecidableEq, Repr

/-- The closure environment of `playSegment` (lines 901-946): the render
snapshot plus the locals of the enclosing `startRepeatPlayback` call
(`startTime` in seconds, `duration` in milliseconds; `none` models a
`NaN`/`undefined` produced by missing time fields). -/
structure SegClosure where
  snap : Snap
  startTime : Option ℚ
  duration : Option ℚ
  deriving DecidableEq, Repr

/-- A pending asynchronous callback.

* `repeatStart`: the `setTimeout(() => startRepeatPlayback(start, end), 500)`
  scheduled when the second endpoint is tapped (line 775), with the tap
  render's snapshot and the two captured hotspots;
* `seg`: the untracked `setTimeout(playSegment, 500)` inter-iteration gap
  timer (line 933);
* `durStop`: the duration timer stored in `currentTimeoutRef` (line 927),
  which unloads the ephemeral instance `ephId`;
* `load`: the Howl `onload` callback of ephemeral instance `ephId`
  (line 917);
* `queueAdvance`: the `setTimeout(() => handleNextInQueue(), 100)` from
  the shared Howl `onend` handler (line 663); it carries the `audioQueue`
  value captured by the render whose `handleNextInQueue` the `onend`
  closure refers to (the render in which `loadPdf` created the Howl). -/
inductive Task
  | repeatStart (snap : Snap) (startH endH : Hotspot)
  | seg (c : SegClosure)
  | durStop (c : SegClosure) (ephId : ℕ)
  | load (c : SegClosure) (ephId : ℕ)
  | queueAdvance (capturedQueue : List Hotspot)
  deriving DecidableEq, Repr

/-- The whole engine state.

`loaded` is the domain shared by `howlInstances` and `audioFiles` (the
loader populates both maps together on success, lines 615/669); the value
is the sprite id the shared Howl is currently playing, if any.
`capturedQueue` is the `audioQueue` value of the render whose
`handleNextInQueue` the Howl `onend` closures captured — the render in
which the `loadPdf` effect ran (its initial value is `[]`).
`currentTimeoutId` / `repeatHowlRef` are the two `useRef` cells; the other
Boolean/option fields are the live `useState` cells. -/
structure EngineState where
  isPlaying : Bool
  currentHotspot : Option Hotspot
  audioQueue : List Hotspot
  isRepeatMode : Bool
  isConnectedMode : Bool
  repeatStartHotspot : Option Hotspot
  repeatEndHotspot : Option Hotspot
  isRepeating : Bool
  repeatPaused : Bool
  currentTimeoutId : Option ℕ
  repeatHowlRef : Option ℕ
  book : Book
  loaded : List (String × Option String)
  capturedQueue : List Hotspot
  ephs : List (ℕ × EphStatus)
  nextId : ℕ
  pending : List (ℕ × Task)
  deriving DecidableEq, Repr

/-- Lookup `howlInstances[f]` / `audioFiles[f]`: `none` when the file never
loaded, `some p` when it is loaded and `p` is the sprite it is playing. -/
def lookupLoaded (l : List (String × Option String)) (f : String) :
    Option (Option String) :=
  (l.find? (fun p => p.1 = f)).map Prod.snd

/-- Update the playing sprite of one loaded file. -/
def setLoaded : List (String × Option String) → String → Option String →
    List (String × Option String)
  | [], _, _ => []
  | (k, v) :: t, f, x =>
    if k = f then (k, x) :: t else (k, v) :: setLoaded t f x

/-- Source `Object.values(howlInstances).forEach(h => h.stop())`: every shared
instance stops. -/
def stopAllLoaded (l : List (String × Option String)) :
    List (String × Option String) :=
  l.map (fun p => (p.1, (none : Option String)))

/-- Number of shared players currently playing a sprite. -/
def playingCount (l : List (String × Option String)) : ℕ :=
  (l.filter (fun p => p.2.isSome)).length

/-- Status of an ephemeral instance by identifier. -/
def ephStatus (ephs : List (ℕ × EphStatus)) (i : ℕ) : Option EphStatus :=
  (ephs.find? (fun p => p.1 = i)).map Prod.snd

/-- Set the status of an ephemeral instance. -/
def setEph : List (ℕ × EphStatus) → ℕ → EphStatus → List (ℕ × EphStatus)
  | [], _, _ => []
  | (k, v) :: t, i, st =>
    if k = i then (k, st) :: t else (k, v) :: setEph t i st

/-- Stopping every shared Howl: the playing ones fire `onstop`, whose
handler (lines 645-649) does `setIsPlaying(false); setCurrentHotspot(null)`. -/
def stopAllHowls (s : EngineState) : EngineState :=
  if 0 < playingCount s.loaded then
    { s with loaded := stopAllLoaded s.loaded, isPlaying := false,
             currentHotspot := none }
  else
    { s with loaded := stopAllLoaded s.loaded }

/-- Source `clearTimeout(currentTimeoutRef.current)`: cancels the pending task
whose identifier the ref holds (the ref itself is not nulled by the
source at these call sites). -/
def clearCurrentTimeout (s : EngineState) : EngineState :=
  match s.currentTimeoutId with
  | some t => { s with pending := s.pending.filter (fun p => p.1 ≠ t) }
  | none => s

/-- Source `if (repeatHowlRef.current) { repeatHowlRef.current.unload();
repeatHowlRef.current = null; }` -/
def unloadEphRef (s : EngineState) : EngineState :=
  match s.repeatHowlRef with
  | some i => { s with ephs := setEph s.ephs i EphStatus.unloaded,
                       repeatHowlRef := none }
  | none => s

/-! ## `playHotspotAudio` (lines 712-738)

```
if (!hotspot.id) return;
const audioFileName = hotspot.audioFile || bookData?.audioFile;
if (!audioFileName) return;
const howl = howlInstances[audioFileName];
if (!howl) return;
Object.values(howlInstances).forEach(h => h.stop());
setCurrentHotspot(hotspot);
howl.play(hotspot.id);
```

`howl.play(sprite)` on a Howl constructed with a `sprite:` map begins
playback only when the key exists in that map (Howler plays nothing for
an unknown sprite key); `onplay` then runs `setIsPlaying(true)`
(line 637). -/
def playHotspotAudio (s : EngineState) (h : Hotspot) : EngineState :=
  if !truthyStr h.id then s
  else
    match resolvedName s.book h with
    | none => s
    | some f =>
      match lookupLoaded s.loaded f with
      | none => s
      | some _ =>
        let s1 := stopAllHowls s
        let s2 := { s1 with currentHotspot := some h }
        if (spriteLookup (spritesFor s.book.hotspots f)
            ((h.id).getD "")).isSome then
          { s2 with loaded := setLoaded s2.loaded f h.id, isPlaying := true }
        else s2

/-! ## The repeat loop (`startRepeatPlayback`, lines 867-949) -/

/-- Source expression `(endTime - startTime) * 1000` on raw JS values; `none` models the
`NaN` produced when either time field is `undefined`. -/
def jsDurationMs (endTime startTime : Option ℚ) : Option ℚ :=
  match endTime, startTime with
  | some e, some st => some ((e - st) * 1000)
  | _, _ => none

/-- The JS test `duration <= 0` (false for `NaN`). -/
def jsLeZero : Option ℚ → Bool
  | some q => decide (q ≤ 0)
  | none => false

/-- The inner `playSegment` (lines 901-946).  It first re-checks
`if (!isRepeatMode || repeatPaused)` — but against the **captured**
render snapshot `c.snap`, not the live state.  If the check passes it
allocates a fresh ephemeral Howl (status `loading`), stores it in
`repeatHowlRef`, and Howler schedules the asynchronous `onload`
callback. -/
def playSegment (c : SegClosure) (s : EngineState) : EngineState :=
  if !c.snap.isRepeatMode || c.snap.repeatPaused then
    unloadEphRef { s with isRepeating := false }
  else
    { s with ephs := s.ephs ++ [(s.nextId, EphStatus.loading)],
             pending := s.pending ++ [(s.nextId + 1, Task.load c s.nextId)],
             repeatHowlRef := some s.nextId,
             nextId := s.nextId + 2 }

/-- Source `startRepeatPlayback(startHotspot, endHotspot)` (lines 867-949),
called with the closure snapshot of the render that scheduled it.
Both arguments are genuine hotspot objects, so the
`if (!startHotspot || !endHotspot)` guard passes.  Steps: stop all shared
Howls; unload (but do not null) a lingering `repeatHowlRef` instance;
`setIsRepeating(true); setRepeatPaused(false)`; resolve
`startHotspot.audioFile || bookData?.audioFile` in `audioFiles`; compute
`duration = (endHotspot.audioEnd - startHotspot.audioStart) * 1000`;
bail out with `setIsRepeating(false)` when the file is missing or
`duration <= 0`; otherwise run the first `playSegment` iteration. -/
def startRepeatPlayback (snap : Snap) (startH endH : Hotspot)
    (s : EngineState) : EngineState :=
  let s1 := stopAllHowls s
  let s2 := match s1.repeatHowlRef with
            | some i => { s1 with ephs := setEph s1.ephs i EphStatus.unloaded }
            | none => s1
  let s3 := { s2 with isRepeating := true, repeatPaused := false }
  match resolvedName s3.book startH with
  | none => { s3 with isRepeating := false }
  | some f =>
    match lookupLoaded s3.loaded f with
    | none => { s3 with isRepeating := false }
    | some _ =>
      let duration := jsDurationMs endH.audioEnd startH.audioStart
      if jsLeZero duration then { s3 with isRepeating := false }
      else
        playSegment { snap := snap, startTime := startH.audioStart,
                      duration := duration } s3

/-- The ephemeral Howl `onload` callback (lines 917-935):
`howl.seek(startTime); howl.play();` then clear any timer held in
`currentTimeoutRef` and store the new duration timer there.  If the
instance was unloaded before decoding finished, Howler drops the event. -/
def runLoad (c : SegClosure) (ephId : ℕ) (s : EngineState) : EngineState :=
  match ephStatus s.ephs ephId with
  | some EphStatus.loading =>
    let s1 := { s with ephs := setEph s.ephs ephId (EphStatus.playing c.startTime) }
    let s2 := clearCurrentTimeout s1
    { s2 with pending := s2.pending ++ [(s2.nextId, Task.durStop c ephId)],
              currentTimeoutId := some s2.nextId,
              nextId := s2.nextId + 1 }
  | _ => s

/-- The duration timer callback (lines 927-934): `howl.unload();
repeatHowlRef.current = null;` then `setTimeout(playSegment, 500)` —
note that this gap timer's identifier is stored nowhere. -/
def runDurStop (c : SegClosure) (ephId : ℕ) (s : EngineState) : EngineState :=
  { s with ephs := setEph s.ephs ephId EphStatus.unloaded,
           repeatHowlRef := none,
           pending := s.pending ++ [(s.nextId, Task.seg c)],
           nextId := s.nextId + 1 }

/-- Source `handleNextInQueue` (lines 703-709) as invoked from the `onend`
closure: the emptiness test and the head are read from the **captured**
`audioQueue`, while `setAudioQueue(prev => prev.slice(1))` is a
functional update on the live queue. -/
def runQueueAdvance (capturedQueue : List Hotspot) (s : EngineState) :
    EngineState :=
  match capturedQueue with
  | [] => s
  | nh :: _ =>
    playHotspotAudio { s with audioQueue := s.audioQueue.drop 1 } nh

/-- Dispatch a pending asynchronous callback. -/
def runTask : Task → EngineState → EngineState
  | Task.repeatStart snap sh eh, s => startRepeatPlayback snap sh eh s
  | Task.seg c, s => playSegment c s
  | Task.durStop c i, s => runDurStop c i s
  | Task.load c i, s => runLoad c i s
  | Task.queueAdvance q, s => runQueueAdvance q s

/-! ## User-event handlers

Event handlers attached by the latest render read the live state, so
their snapshot coincides with the state at invocation time. -/

/-- Source `handleHotspotClick` (lines 740-807). -/
def handleHotspotClick (s : EngineState) (h : Hotspot) : EngineState :=
  if s.isRepeatMode ∧ ¬s.isRepeating then
    match s.repeatStartHotspot with
    | none => { s with repeatStartHotspot := some h }
    | some startPoint =>
      match s.repeatEndHotspot with
      | none =>
        { s with repeatEndHotspot := some h,
                 pending := s.pending ++
                   [(s.nextId,
                     Task.repeatStart
                       { isRepeatMode := s.isRepeatMode,
                         repeatPaused := s.repeatPaused } startPoint h)],
                 nextId := s.nextId + 1 }
      | some _ => { s with repeatStartHotspot := some h,
                           repeatEndHotspot := none }
  else if s.isRepeating then s
  else if s.isConnectedMode then
    if s.isPlaying then { s with audioQueue := s.audioQueue ++ [h] }
    else playHotspotAudio s h
  else playHotspotAudio s h

/-- Source `startRepeatMode` (lines 821-827). -/
def startRepeatMode (s : EngineState) : EngineState :=
  { s with isRepeatMode := true, repeatStartHotspot := none,
           repeatEndHotspot := none, isRepeating := false,
           repeatPaused := false }

/-- Source `exitRepeatMode` (lines 829-846): reset all repeat state, clear the
tracked timer, unload and null the ephemeral instance, stop all shared
Howls. -/
def exitRepeatMode (s : EngineState) : EngineState :=
  let s1 := { s with isRepeatMode := false, repeatStartHotspot := none,
                     repeatEndHotspot := none, isRepeating := false,
                     repeatPaused := false }
  let s2 := clearCurrentTimeout s1
  stopAllHowls (unloadEphRef s2)

/-- Calling `pause()` on an ephemeral Howl affects only a playing instance. -/
def pauseEph : List (ℕ × EphStatus) → ℕ → List (ℕ × EphStatus)
  | [], _ => []
  | (k, v) :: t, i =>
    if k = i then
      match v with
      | EphStatus.playing pos => (k, EphStatus.paused pos) :: t
      | _ => (k, v) :: t
    else (k, v) :: pauseEph t i

/-- Source `pauseRepeat` (lines 848-857). -/
def pauseRepeat (s : EngineState) : EngineState :=
  let s1 := { s with repeatPaused := true }
  let s2 := match s1.repeatHowlRef with
            | some i => { s1 with ephs := pauseEph s1.ephs i }
            | none => s1
  clearCurrentTimeout s2

/-- Source `resumeRepeat` (lines 859-865): `setRepeatPaused(false)` then a
**synchronous** call to `startRepeatPlayback`.  The call runs inside the
current render's closure, whose captured `isRepeatMode`/`repeatPaused`
are still the pre-click values of `s` — the `setRepeatPaused(false)`
just issued is not yet visible to any closure. -/
def resumeRepeat (s : EngineState) : EngineState :=
  let s1 := { s with repeatPaused := false }
  match s.repeatStartHotspot, s.repeatEndHotspot with
  | some sh, some eh =>
    startRepeatPlayback
      { isRepeatMode := s.isRepeatMode, repeatPaused := s.repeatPaused }
      sh eh s1
  | _, _ => s1

/-- Natural completion of a sprite on the shared Howl of file `f` (the
`onend` handler, lines 650-667): only meaningful while that Howl is
playing; `if (isRepeatingRef.current) return;` reads the ref kept in sync
with `isRepeating`; otherwise `setIsPlaying(false);
setCurrentHotspot(null);` and `setTimeout(() => handleNextInQueue(), 100)`
is scheduled, where `handleNextInQueue` is the one captured when the Howl
was created. -/
def spriteEnded (s : EngineState) (f : String) : EngineState :=
  match lookupLoaded s.loaded f with
  | some (some _) =>
    let s1 := { s with loaded := setLoaded s.loaded f none }
    if s1.isRepeating then s1
    else
      { s1 with isPlaying := false, currentHotspot := none,
                pending := s1.pending ++
                  [(s1.nextId, Task.queueAdvance s1.capturedQueue)],
                nextId := s1.nextId + 1 }
  | _ => s

/-! ## Event traces -/

/-- An observable event: a user tap, a mode command, a natural sprite
completion, or an asynchronous callback with identifier `tid` firing. -/
inductive Event
  | tap (h : Hotspot)
  | enterRepeat
  | exitRepeat
  | pauseR
  | resumeR
  | ended (f : String)
  | fire (tid : ℕ)
  deriving DecidableEq, Repr

/-- A scheduled callback fires: it runs only if still pending (a cleared
timer is a no-op). -/
def fireTimer (s : EngineState) (tid : ℕ) : EngineState :=
  match s.pending.find? (fun p => p.1 = tid) with
  | some p =>
    runTask p.2 { s with pending := s.pending.filter (fun q => q.1 ≠ tid) }
  | none => s

/-- One step of the event-driven semantics. -/
def step (s : EngineState) : Event → EngineState
  | Event.tap h => handleHotspotClick s h
  | Event.enterRepeat => startRepeatMode s
  | Event.exitRepeat => exitRepeatMode s
  | Event.pauseR => pauseRepeat s
  | Event.resumeR => resumeRepeat s
  | Event.ended f => spriteEnded s f
  | Event.fire tid => fireTimer s tid

/-- Run an event trace. -/
def run (s : EngineState) (evs : List Event) : EngineState :=
  evs.foldl step s

/-- A sequence of hotspot taps. -/
def runTaps (s : EngineState) (hs : List Hotspot) : EngineState :=
  hs.foldl handleHotspotClick s

/-- Normal mode: not repeat-selecting, not connected reading, not looping
(`handleHotspotClick` then falls through to direct playback). -/
def normalMode (s : EngineState) : Prop :=
  s.isRepeatMode = false ∧ s.isConnectedMode = false ∧ s.isRepeating = false

/-! ## Concrete fixtures

A small book over two loaded audio files, used by the witnesses and
counterexamples: hotspots `hA`, `hB`, `hC` reference `a.mp3` with
consecutive one-second segments, `hX` references `b.mp3`. -/

/-- Hotspot `A`: `a.mp3`, 1s-2s. -/
def hA : Hotspot :=
  { id := some "A", audioFile := some "a.mp3",
    audioStart := some 1, audioEnd := some 2 }

/-- Hotspot `B`: `a.mp3`, 2s-3s. -/
def hB : Hotspot :=
  { id := some "B", audioFile := some "a.mp3",
    audioStart := some 2, audioEnd := some 3 }

/-- Hotspot `C`: `a.mp3`, 3s-4s. -/
def hC : Hotspot :=
  { id := some "C", audioFile := some "a.mp3",
    audioStart := some 3, audioEnd := some 4 }

/-- Hotspot `X`: `b.mp3`, 5s-9s (a second audio file). -/
def hX : Hotspot :=
  { id := some "X", audioFile := some "b.mp3",
    audioStart := some 5, audioEnd := some 9 }

/-- The fixture book. -/
def book1 : Book :=
  { audioFile := some "a.mp3", hotspots := [hA, hB, hC, hX] }

/-- The engine state right after `loadPdf` finished for `book1`: both
audio files loaded and idle, all flags at their `useState` initial
values. -/
def init1 : EngineState :=
  { isPlaying := false, currentHotspot := none, audioQueue := [],
    isRepeatMode := false, isConnectedMode := false,
    repeatStartHotspot := none, repeatEndHotspot := none,
    isRepeating := false, repeatPaused := false,
    currentTimeoutId := none, repeatHowlRef := none,
    book := book1, loaded := [("a.mp3", none), ("b.mp3", none)],
    capturedQueue := [], ephs := [], nextId := 0, pending := [] }

/-- State `init1` with connected-reading mode switched on and nothing playing. -/
def initConn : EngineState :=
  { init1 with isConnectedMode := true }

/-- Scenario A's hotspot: `{audioFile: "a.mp3", audioStart: 2.0,
audioEnd: 4.5}`. -/
def h1A : Hotspot :=
  { id := some "H1", audioFile := some "a.mp3",
    audioStart := some 2, audioEnd := some (9 / 2) }

/-- A hotspot referencing a file that never loaded. -/
def hM : Hotspot :=
  { id := some "M", audioFile := some "c.mp3",
    audioStart := some 0, audioEnd := some 1 }

/-- A RangeReady state over the fixture book. -/
def sReady : EngineState :=
  { init1 with isRepeatMode := true, repeatStartHotspot := some hA,
               repeatEndHotspot := some hB }

/-- Entering repeat mode on the fixture and tapping `hA` (file `a.mp3`)
then `hX` (file `b.mp3`). -/
def crossTrace : List Event :=
  [Event.enterRepeat, Event.tap hA, Event.tap hX]

/-- Trace `crossTrace` followed by the scheduled playback start (timer 0) and
the ephemeral Howl's load callback (timer 2). -/
def crossTraceFull : List Event :=
  crossTrace ++ [Event.fire 0, Event.fire 2]

/-- An AwaitingEnd state over the fixture book with start `hA`. -/
def sAwaitEnd : EngineState :=
  { init1 with isRepeatMode := true, repeatStartHotspot := some hA }

/-- Repeat selection tapping `hB` (start, `audioStart = 2`) then `hA`
(end, `audioEnd = 2`), so `duration = (2 - 2) * 1000 = 0`, then the
scheduled playback-start timer fires. -/
def invTrace : List Event :=
  [Event.enterRepeat, Event.tap hB, Event.tap hA, Event.fire 0]

/-- A same-file repeat loop (`hA` → `hB`) runs one full iteration (start
timer 0, load callback 2, duration timer 3 — which schedules the
untracked 500 ms gap timer 4), then the user exits repeat mode during the
gap. -/
def exitDuringGapTrace : List Event :=
  [Event.enterRepeat, Event.tap hA, Event.tap hB, Event.fire 0,
   Event.fire 2, Event.fire 3, Event.exitRepeat]

/-- Trace `exitDuringGapTrace` followed by the leftover gap timer (4) firing
and the new ephemeral instance's load callback (6). -/
def zombieTrace : List Event :=
  exitDuringGapTrace ++ [Event.fire 4, Event.fire 6]

/-- Connected mode: tap `hA` (plays), tap `hB` and `hC` while `hA` is
playing (both are appended to the queue), then `hA` completes naturally
and the scheduled `handleNextInQueue` callback (timer 0) fires. -/
def connTrace : List Event :=
  [Event.tap hA, Event.tap hB, Event.tap hC, Event.ended "a.mp3",
   Event.fire 0]

/-- A same-file repeat loop (`hA` → `hB`) starts and begins playing
(timers 0 and 2), the user pauses (the ephemeral instance is paused and
the duration timer cancelled), then clicks resume. -/
def pauseTrace : List Event :=
  [Event.enterRepeat, Event.tap hA, Event.tap hB, Event.fire 0,
   Event.fire 2, Event.pauseR]

/-- Trace `pauseTrace` followed by `resumeRepeat`. -/
def resumeTrace : List Event :=
  pauseTrace ++ [Event.resumeR]

/-- A hotspot whose own `audioFile` (`a.mp3`) never loaded. -/
def hOwn : Hotspot :=
  { id := some "O", audioFile := some "a.mp3",
    audioStart := some 0, audioEnd := some 1 }

/-- A state where only the book default `b.mp3` is loaded while `hOwn`'s
own file `a.mp3` is not. -/
def sOwn : EngineState :=
  { init1 with book := { audioFile := some "b.mp3", hotspots := [hOwn] },
               loaded := [("b.mp3", none)] }

/-- A hotspot with no `audioFile` of its own. -/
def hNoFile : Hotspot :=
  { id := some "N", audioFile := none,
    audioStart := some 0, audioEnd := some 1 }

/-! ## Sprite-index lemmas (claim C7) -/

/-- Whether one `forEach` step writes the key `i` into the sprite map of
file `f` (all the guards of lines 623-627 hold; `st < en` is equivalent
to the source's `0 < (en - st) * 1000`). -/
def spriteWrites (f i : String) (h : Hotspot) : Bool :=
  match h.audioFile, h.id, h.audioStart, h.audioEnd with
  | some fh, some ih, some st, some en =>
    fh = f && ih = i && (ih != "") && decide (st < en)
  | _, _, _, _ => false

/-- The `[startTime, duration]` pair a writing step stores. -/
def spriteValue (h : Hotspot) : ℚ × ℚ :=
  ((h.audioStart.getD 0) * 1000,
   ((h.audioEnd.getD 0) - (h.audioStart.getD 0)) * 1000)

theorem spriteLookup_cons (e : String × ℚ × ℚ) (acc : List (String × ℚ × ℚ))
    (i : String) :
    spriteLookup (e :: acc) i =
      if e.1 = i then some e.2 else spriteLookup acc i := by
  simp only [spriteLookup, List.find?]
  by_cases hei : e.1 = i
  · simp [hei]
  · simp [hei]

theorem spriteLookup_spriteStep (f i : String)
    (acc : List (String × ℚ × ℚ)) (h : Hotspot) :
    spriteLookup (spriteStep f acc h) i =
      if spriteWrites f i h then some (spriteValue h)
      else spriteLookup acc i := by
  obtain ⟨i?, f?, s?, e?⟩ := h
  rcases f? with - | fh
  · cases i? <;> cases s? <;> cases e? <;> simp [spriteStep, spriteWrites]
  rcases i? with - | ih
  · cases s? <;> cases e? <;> simp [spriteStep, spriteWrites]
  rcases s? with - | st
  · cases e? <;> simp [spriteStep, spriteWrites]
  rcases e? with - | en
  · simp [spriteStep, spriteWrites]
  simp only [spriteStep, spriteWrites, spriteValue, Option.getD_some]
  by_cases hf : fh = f
  swap
  · simp [hf]
  by_cases hne : ih = ""
  · simp [hf, hne]
  have hne2 : (ih != "") = true := by simpa using hne
  by_cases hd : st < en
  · have hd1000 : 0 < (en - st) * 1000 := by linarith
    by_cases hii : ih = i
    · subst hii
      simp [hf, hne2, hd, hd1000, spriteLookup_cons]
    · simp [hf, hne2, hd, hd1000, hii, spriteLookup_cons]
  · have hd1000 : ¬0 < (en - st) * 1000 := fun hc => hd (by linarith)
    simp [hf, hne2, hd, hd1000]

theorem spriteWrites_file_id {f i : String} {h : Hotspot}
    (hw : spriteWrites f i h = true) :
    h.audioFile = some f ∧ h.id = some i := by
  obtain ⟨i?, f?, s?, e?⟩ := h
  rcases f? with - | fh
  · simp [spriteWrites] at hw
  rcases i? with - | ih
  · simp [spriteWrites] at hw
  rcases s? with - | st
  · simp [spriteWrites] at hw
  rcases e? with - | en
  · simp [spriteWrites] at hw
  simp only [spriteWrites, Bool.and_eq_true, decide_eq_true_eq] at hw
  obtain ⟨⟨⟨hf, hi⟩, -⟩, -⟩ := hw
  exact ⟨by simp [hf], by simp [hi]⟩

theorem spriteLookup_foldl_of_none (f i : String) (t : List Hotspot)
    (acc : List (String × ℚ × ℚ))
    (hno : ∀ h' ∈ t, spriteWrites f i h' = false) :
    spriteLookup (t.foldl (spriteStep f) acc) i = spriteLookup acc i := by
  induction t generalizing acc with
  | nil => rfl
  | cons h' t ih =>
    simp only [List.foldl_cons]
    rw [ih _ (fun x hx => hno x (List.mem_cons_of_mem _ hx)),
      spriteLookup_spriteStep, hno h' (List.mem_cons_self _ _)]
    simp

theorem spriteLookup_foldl_of_some (f i : String) (h : Hotspot)
    (t : List Hotspot) (acc : List (String × ℚ × ℚ))
    (honly : ∀ h' ∈ t, spriteWrites f i h' = true → h' = h)
    (hacc : spriteLookup acc i = some (spriteValue h)) :
    spriteLookup (t.foldl (spriteStep f) acc) i = some (spriteValue h) := by
  induction t generalizing acc with
  | nil => exact hacc
  | cons h' t ih =>
    simp only [List.foldl_cons]
    refine ih _ (fun x hx => honly x (List.mem_cons_of_mem _ hx)) ?_
    rw [spriteLookup_spriteStep]
    by_cases hw : spriteWrites f i h' = true
    · have he := honly h' (List.mem_cons_self _ _) hw
      subst he
      simp [hw]
    · simp only [Bool.not_eq_true] at hw
      simp [hw, hacc]

theorem spriteLookup_foldl_mem (f i : String) (h : Hotspot)
    (hw : spriteWrites f i h = true) (hs : List Hotspot) :
    ∀ acc : List (String × ℚ × ℚ), h ∈ hs →
      (∀ h' ∈ hs, spriteWrites f i h' = true → h' = h) →
      spriteLookup (hs.foldl (spriteStep f) acc) i = some (spriteValue h) := by
  induction hs with
  | nil =>
    intro acc hmem _
    exact absurd hmem (List.not_mem_nil _)
  | cons hh t ih =>
    intro acc hmem honly
    simp only [List.foldl_cons]
    by_cases hw' : spriteWrites f i hh = true
    · have he := honly hh (List.mem_cons_self _ _) hw'
      subst he
      refine spriteLookup_foldl_of_some f i hh t _
        (fun x hx hxx => honly x (List.mem_cons_of_mem _ hx) hxx) ?_
      rw [spriteLookup_spriteStep, if_pos hw']
    · rcases List.mem_cons.mp hmem with he | hmem'
      · exact absurd (he ▸ hw) hw'
      · exact ih _ hmem'
          (fun x hx hxx => honly x (List.mem_cons_of_mem _ hx) hxx)

/-- Claim C7 — Sprite-index construction (`loadPdf` lines 620-631) maps, for
each loaded audio file `f`, every referencing hotspot id `i` (unique among
the hotspots referencing `f`) to the segment
`(audioStart * 1000, (audioEnd - audioStart) * 1000)` in milliseconds when
its duration is positive, and silently drops the hotspot (its id is
absent, no error is raised — the construction is a total function) when
`audioEnd - audioStart` is not strictly positive. -/
theorem claim_C7_sprite_index (hs : List Hotspot) (f : String) (h : Hotspot)
    (i : String) (st en : ℚ)
    (hmem : h ∈ hs) (hfile : h.audioFile = some f) (hid : h.id = some i)
    (hne : i ≠ "") (hst : h.audioStart = some st)
    (hen : h.audioEnd = some en)
    (huniq : ∀ h' ∈ hs, h'.audioFile = some f → h'.id = some i → h' = h) :
    (st < en →
      spriteLookup (spritesFor hs f) i = some (st * 1000, (en - st) * 1000)) ∧
    (en ≤ st → spriteLookup (spritesFor hs f) i = none) := by
  constructor
  · intro hd
    have hw : spriteWrites f i h = true := by
      simp [spriteWrites, hfile, hid, hst, hen, hne, hd]
    have hval : spriteValue h = (st * 1000, (en - st) * 1000) := by
      simp [spriteValue, hst, hen]
    rw [spritesFor,
      spriteLookup_foldl_mem f i h hw hs [] hmem
        (fun h' hm hw' =>
          huniq h' hm (spriteWrites_file_id hw').1 (spriteWrites_file_id hw').2),
      hval]
  · intro hd
    have hno : ∀ h' ∈ hs, spriteWrites f i h' = false := by
      intro h' hm
      by_contra hcon
      have hw' : spriteWrites f i h' = true := by
        simpa using hcon
      have he := huniq h' hm (spriteWrites_file_id hw').1
        (spriteWrites_file_id hw').2
      rw [he] at hw'
      simp [spriteWrites, hfile, hid, hst, hen, hne, not_lt.mpr hd] at hw'
    rw [spritesFor, spriteLookup_foldl_of_none f i hs [] hno]
    rfl

/-- Witness for C7: the Scenario A hotspot gets the segment
`(2000 ms, 2500 ms)`. -/
theorem claim_C7_sprite_index_witness :
    spriteLookup (spritesFor [h1A] "a.mp3") "H1" = some (2000, 2500) := by
  have h := (claim_C7_sprite_index [h1A] "a.mp3" h1A "H1" 2 (9 / 2)
    (List.mem_singleton.mpr rfl) rfl rfl (by decide) rfl rfl
    (fun h' hmem _ _ => by simpa using hmem)).1 (by norm_num)
  rw [h]
  norm_num

/-! ## Exclusivity lemmas (claim C4) -/

theorem playingCount_cons (k : String) (v : Option String)
    (t : List (String × Option String)) :
    playingCount ((k, v) :: t) =
      (if v.isSome then 1 else 0) + playingCount t := by
  cases v <;> simp [playingCount, List.filter_cons, Nat.add_comm]

theorem playingCount_stopAllLoaded (l : List (String × Option String)) :
    playingCount (stopAllLoaded l) = 0 := by
  induction l with
  | nil => rfl
  | cons p t ih =>
    simp only [stopAllLoaded, List.map_cons] at ih ⊢
    rw [playingCount_cons]
    simp [ih]

theorem playingCount_setLoaded_stopAll (l : List (String × Option String))
    (f : String) (x : Option String) :
    playingCount (setLoaded (stopAllLoaded l) f x) ≤ 1 := by
  induction l with
  | nil => simp [stopAllLoaded, setLoaded, playingCount]
  | cons p t ih =>
    simp only [stopAllLoaded, List.map_cons, setLoaded]
    by_cases hk : p.1 = f
    · rw [if_pos hk, playingCount_cons]
      have h0 : playingCount (List.map (fun p => (p.1, (none : Option String))) t) = 0 :=
        playingCount_stopAllLoaded t
      rw [h0]
      cases x <;> simp
    · rw [if_neg hk, playingCount_cons]
      simpa using ih

theorem playingCount_playHotspotAudio (s : EngineState) (h : Hotspot)
    (hone : playingCount s.loaded ≤ 1) :
    playingCount (playHotspotAudio s h).loaded ≤ 1 := by
  unfold playHotspotAudio stopAllHowls
  split
  · exact hone
  split
  · exact hone
  split
  · exact hone
  split <;> split <;>
    simp [playingCount_setLoaded_stopAll, playingCount_stopAllLoaded]

theorem normalMode_playHotspotAudio (s : EngineState) (h : Hotspot)
    (hn : normalMode s) : normalMode (playHotspotAudio s h) := by
  obtain ⟨h1, h2, h3⟩ := hn
  unfold normalMode playHotspotAudio stopAllHowls
  split
  · exact ⟨h1, h2, h3⟩
  split
  · exact ⟨h1, h2, h3⟩
  split
  · exact ⟨h1, h2, h3⟩
  split <;> split <;> simp [h1, h2, h3]

theorem handleHotspotClick_normal (s : EngineState) (h : Hotspot)
    (hn : normalMode s) :
    handleHotspotClick s h = playHotspotAudio s h := by
  obtain ⟨h1, h2, h3⟩ := hn
  simp [handleHotspotClick, h1, h2, h3]

/-- Claim C4 — For every sequence of Normal-mode activations, at no point
are two shared audio players simultaneously playing: `playHotspotAudio`
stops every Howl instance synchronously (lines 730-731) before starting
the new segment (line 737), so from any state with at most one playing
source, every state reached by a sequence of Normal-mode taps again has
at most one playing source (and the engine stays in Normal mode). -/
theorem claim_C4_exclusivity (s : EngineState) (hn : normalMode s)
    (hone : playingCount s.loaded ≤ 1) (hs : List Hotspot) :
    playingCount (runTaps s hs).loaded ≤ 1 ∧ normalMode (runTaps s hs) := by
  induction hs generalizing s with
  | nil => exact ⟨hone, hn⟩
  | cons h t ih =>
    have hstep : runTaps s (h :: t) = runTaps (playHotspotAudio s h) t := by
      simp [runTaps, handleHotspotClick_normal s h hn]
    rw [hstep]
    exact ih _ (normalMode_playHotspotAudio s h hn)
      (playingCount_playHotspotAudio s h hone)

/-- Witness for C4: three taps on the fixture book, starting idle. -/
theorem claim_C4_exclusivity_witness :
    playingCount (runTaps init1 [hA, hB, hA]).loaded ≤ 1 :=
  (claim_C4_exclusivity init1 ⟨rfl, rfl, rfl⟩ (by decide) [hA, hB, hA]).1

/-- Claim C6 — A Normal-mode activation of a hotspot whose resolved audio
file has no loaded Howl instance is a complete no-op (`playHotspotAudio`
returns before stopping anything, before `setCurrentHotspot` and before
`howl.play`): no player is stopped, the current hotspot stays unchanged,
and no playback starts. -/
theorem claim_C6_missing_asset_noop (s : EngineState) (h : Hotspot)
    (f : String) (hres : resolvedName s.book h = some f)
    (hmiss : lookupLoaded s.loaded f = none) :
    playHotspotAudio s h = s := by
  unfold playHotspotAudio
  split
  · rfl
  · simp [hres, hmiss]

/-- Witness for C6: activating `hM` on `init1` changes nothing. -/
theorem claim_C6_missing_asset_noop_witness :
    playHotspotAudio init1 hM = init1 :=
  claim_C6_missing_asset_noop init1 hM "c.mp3" (by decide) (by decide)

/-! ## Projection lemmas for the repeat machinery -/

@[simp]
theorem stopAllHowls_ephs (s : EngineState) :
    (stopAllHowls s).ephs = s.ephs := by
  unfold stopAllHowls
  split <;> rfl

@[simp]
theorem stopAllHowls_nextId (s : EngineState) :
    (stopAllHowls s).nextId = s.nextId := by
  unfold stopAllHowls
  split <;> rfl

@[simp]
theorem stopAllHowls_pending (s : EngineState) :
    (stopAllHowls s).pending = s.pending := by
  unfold stopAllHowls
  split <;> rfl

@[simp]
theorem stopAllHowls_repeatHowlRef (s : EngineState) :
    (stopAllHowls s).repeatHowlRef = s.repeatHowlRef := by
  unfold stopAllHowls
  split <;> rfl

@[simp]
theorem stopAllHowls_book (s : EngineState) :
    (stopAllHowls s).book = s.book := by
  unfold stopAllHowls
  split <;> rfl

@[simp]
theorem stopAllHowls_loaded (s : EngineState) :
    (stopAllHowls s).loaded = stopAllLoaded s.loaded := by
  unfold stopAllHowls
  split <;> rfl

@[simp]
theorem stopAllHowls_repeatStartHotspot (s : EngineState) :
    (stopAllHowls s).repeatStartHotspot = s.repeatStartHotspot := by
  unfold stopAllHowls
  split <;> rfl

@[simp]
theorem stopAllHowls_repeatEndHotspot (s : EngineState) :
    (stopAllHowls s).repeatEndHotspot = s.repeatEndHotspot := by
  unfold stopAllHowls
  split <;> rfl

@[simp]
theorem stopAllHowls_repeatPaused (s : EngineState) :
    (stopAllHowls s).repeatPaused = s.repeatPaused := by
  unfold stopAllHowls
  split <;> rfl

@[simp]
theorem stopAllHowls_isRepeating (s : EngineState) :
    (stopAllHowls s).isRepeating = s.isRepeating := by
  unfold stopAllHowls
  split <;> rfl

theorem setEph_map_fst (l : List (ℕ × EphStatus)) (j : ℕ) (st : EphStatus) :
    (setEph l j st).map Prod.fst = l.map Prod.fst := by
  induction l with
  | nil => rfl
  | cons p t ih =>
    obtain ⟨k, v⟩ := p
    simp only [setEph]
    by_cases hk : k = j
    · simp [hk]
    · simp [hk, ih]

theorem ephStatus_cons (k : ℕ) (v : EphStatus) (t : List (ℕ × EphStatus))
    (n : ℕ) :
    ephStatus ((k, v) :: t) n = if k = n then some v else ephStatus t n := by
  simp only [ephStatus, List.find?]
  by_cases hk : k = n <;> simp [hk]

theorem ephStatus_setEph_none (l : List (ℕ × EphStatus)) (j : ℕ)
    (st : EphStatus) (n : ℕ) (h : ephStatus l n = none) :
    ephStatus (setEph l j st) n = none := by
  induction l with
  | nil => rfl
  | cons p t ih =>
    obtain ⟨k, v⟩ := p
    rw [ephStatus_cons] at h
    by_cases hk : k = n
    · rw [if_pos hk] at h
      exact absurd h (by simp)
    · rw [if_neg hk] at h
      simp only [setEph]
      by_cases hj : k = j
      · rw [if_pos hj, ephStatus_cons, if_neg hk]
        exact h
      · rw [if_neg hj, ephStatus_cons, if_neg hk]
        exact ih h

theorem ephStatus_append_fresh (l : List (ℕ × EphStatus)) (n : ℕ)
    (st : EphStatus) (hfresh : ephStatus l n = none) :
    ephStatus (l ++ [(n, st)]) n = some st := by
  induction l with
  | nil =>
    rw [List.nil_append, ephStatus_cons]
    simp
  | cons p t ih =>
    obtain ⟨k, v⟩ := p
    rw [ephStatus_cons] at hfresh
    by_cases hk : k = n
    · rw [if_pos hk] at hfresh
      exact absurd hfresh (by simp)
    · rw [if_neg hk] at hfresh
      rw [List.cons_append, ephStatus_cons, if_neg hk]
      exact ih hfresh

theorem lookupLoaded_stopAllLoaded (l : List (String × Option String))
    (f : String) :
    lookupLoaded (stopAllLoaded l) f =
      (lookupLoaded l f).map (fun _ => (none : Option String)) := by
  induction l with
  | nil => rfl
  | cons p t ih =>
    obtain ⟨k, v⟩ := p
    simp only [stopAllLoaded, List.map_cons, lookupLoaded, List.find?]
    by_cases hk : (k = f)
    · simp [hk]
    · simpa [hk, lookupLoaded, stopAllLoaded] using ih

/-! ## Claim C8 — re-selection from RangeReady -/

/-- Claim C8 — In repeat mode, once a start/end pair is recorded and the
loop has not started, any further tap becomes the new start, the end is
cleared (back to AwaitingEnd), and nothing else changes — in particular
no playback is scheduled for the old pair with the new tap as its end
(the pending queue is untouched, as the full state equality shows). -/
theorem claim_C8_rangeready_reselect (s : EngineState) (h a b : Hotspot)
    (hm : s.isRepeatMode = true) (hr : s.isRepeating = false)
    (hsa : s.repeatStartHotspot = some a)
    (hsb : s.repeatEndHotspot = some b) :
    handleHotspotClick s h =
      { s with repeatStartHotspot := some h, repeatEndHotspot := none } := by
  simp [handleHotspotClick, hm, hr, hsa, hsb]

/-- Witness for C8: tapping `hC` in a RangeReady state. -/
theorem claim_C8_rangeready_reselect_witness :
    handleHotspotClick sReady hC =
      { sReady with repeatStartHotspot := some hC, repeatEndHotspot := none } :=
  claim_C8_rangeready_reselect sReady hC hA hB rfl rfl rfl rfl

/-! ## Claim C1 — cross-file repeat ranges are not rejected -/

/-- Counterexample to C1 as stated: the two tapped hotspots reference
different audio files, yet the end endpoint **is** recorded and the
repeat loop **does** start (the ephemeral instance ends up playing and
`isRepeating` is set) — there is no `IncompatibleRange` rejection in
`handleHotspotClick` (lines 750-778). -/
theorem claim_C1_counterexample :
    hA.audioFile ≠ hX.audioFile ∧
    (run init1 crossTrace).repeatEndHotspot = some hX ∧
    (run init1 crossTraceFull).isRepeating = true ∧
    (run init1 crossTraceFull).ephs = [(1, EphStatus.playing (some 1))] := by
  refine ⟨by decide, ?_, ?_, ?_⟩ <;>
  · simp [run, step, fireTimer, runTask, startRepeatPlayback, playSegment,
      runLoad, runDurStop, runQueueAdvance, handleHotspotClick,
      playHotspotAudio, startRepeatMode, exitRepeatMode, pauseRepeat,
      resumeRepeat, spriteEnded, stopAllHowls, clearCurrentTimeout,
      unloadEphRef, lookupLoaded, setLoaded, stopAllLoaded, playingCount,
      ephStatus, setEph, pauseEph, resolvedName, jsOrStr, truthyStr,
      jsDurationMs, jsLeZero, spritesFor, spriteStep, spriteLookup, init1,
      book1, hA, hB, hC, hX, crossTrace, crossTraceFull]
    try norm_num
    try simp [setEph]

/-- Claim C1 (amended) — In repeat mode with a start recorded, tapping an
end hotspot from a *different* audio file is not rejected: the end is
recorded and `startRepeatPlayback(start, end)` is scheduled exactly as
for a same-file pair (first conjunct); and whenever the start hotspot's
resolved file is loaded and `end.audioEnd - start.audioStart > 0`, the
started playback loops over that span of the **start** hotspot's file
(second conjunct: the loop flag is set, a fresh ephemeral instance is
created and its load callback carrying `[start.audioStart, duration]` is
scheduled). -/
theorem claim_C1_amended (s : EngineState) (sh h : Hotspot)
    (hm : s.isRepeatMode = true) (hr : s.isRepeating = false)
    (hsa : s.repeatStartHotspot = some sh) (hsb : s.repeatEndHotspot = none)
    (_hdiff : sh.audioFile ≠ h.audioFile) :
    ((handleHotspotClick s h).repeatEndHotspot = some h ∧
     (handleHotspotClick s h).pending =
       s.pending ++ [(s.nextId,
         Task.repeatStart { isRepeatMode := s.isRepeatMode,
                            repeatPaused := s.repeatPaused } sh h)]) ∧
    (∀ (snap : Snap) (s' : EngineState) (f : String) (a b : ℚ),
      snap.isRepeatMode = true → snap.repeatPaused = false →
      s'.repeatHowlRef = none → ephStatus s'.ephs s'.nextId = none →
      resolvedName s'.book sh = some f →
      (lookupLoaded s'.loaded f).isSome = true →
      sh.audioStart = some a → h.audioEnd = some b → a < b →
      (startRepeatPlayback snap sh h s').isRepeating = true ∧
      (startRepeatPlayback snap sh h s').repeatHowlRef = some s'.nextId ∧
      ephStatus (startRepeatPlayback snap sh h s').ephs s'.nextId =
        some EphStatus.loading ∧
      (startRepeatPlayback snap sh h s').pending =
        s'.pending ++ [(s'.nextId + 1,
          Task.load { snap := snap, startTime := some a,
                      duration := some ((b - a) * 1000) } s'.nextId)]) := by
  constructor
  · constructor <;> simp [handleHotspotClick, hm, hr, hsa, hsb]
  · intro snap s' f a b hsnm hsnp href hfresh hres hload hsta hend hab
    have hpos : ¬((b - a) * 1000 ≤ 0) := by
      intro hc
      nlinarith
    obtain ⟨v, hv⟩ := Option.isSome_iff_exists.mp hload
    have hload2 : lookupLoaded (stopAllLoaded s'.loaded) f = some none := by
      rw [lookupLoaded_stopAllLoaded, hv]
      rfl
    dsimp only [startRepeatPlayback]
    simp only [stopAllHowls_repeatHowlRef, stopAllHowls_book,
      stopAllHowls_loaded, stopAllHowls_pending, stopAllHowls_nextId,
      stopAllHowls_ephs, href, hres, hload2, hsta, hend, jsDurationMs,
      jsLeZero, decide_eq_true_eq]
    rw [if_neg hpos]
    dsimp only [playSegment]
    rw [hsnm, hsnp]
    simp only [Bool.not_true, Bool.or_false, Bool.false_eq_true, if_false]
    refine ⟨trivial, trivial, ?_, trivial⟩
    exact ephStatus_append_fresh s'.ephs s'.nextId EphStatus.loading hfresh

/-- Witness for C1 (amended): the concrete cross-file pair `hA`/`hX` on
the fixture. -/
theorem claim_C1_amended_witness :
    (handleHotspotClick sAwaitEnd hX).repeatEndHotspot = some hX ∧
    (startRepeatPlayback { isRepeatMode := true, repeatPaused := false }
      hA hX init1).isRepeating = true := by
  have h := claim_C1_amended sAwaitEnd hA hX rfl rfl rfl rfl (by decide)
  exact ⟨h.1.1,
    (h.2 { isRepeatMode := true, repeatPaused := false } init1 "a.mp3" 1 9
      rfl rfl rfl rfl (by decide) (by decide) rfl rfl (by norm_num)).1⟩

/-! ## Claim C5 — invalid repeat range: rejected, but endpoints retained -/

/-- Counterexample to C5 as stated: with a non-positive tap-ordered
duration the start does fail (`isRepeating` ends `false`, no ephemeral
audio resource is ever created) — but the range selector does **not**
return to AwaitingStart: both endpoints are still recorded after the
failure (`startRepeatPlayback` lines 895-899 only reset `isRepeating`). -/
theorem claim_C5_counterexample :
    hB.audioStart = some 2 ∧ hA.audioEnd = some 2 ∧
    (run init1 invTrace).isRepeating = false ∧
    (run init1 invTrace).ephs = [] ∧
    (run init1 invTrace).pending = [] ∧
    (run init1 invTrace).repeatStartHotspot = some hB ∧
    (run init1 invTrace).repeatEndHotspot = some hA := by
  refine ⟨rfl, rfl, ?_, ?_, ?_, ?_, ?_⟩ <;>
  · simp [run, step, fireTimer, runTask, startRepeatPlayback, playSegment,
      runLoad, runDurStop, runQueueAdvance, handleHotspotClick,
      playHotspotAudio, startRepeatMode, exitRepeatMode, pauseRepeat,
      resumeRepeat, spriteEnded, stopAllHowls, clearCurrentTimeout,
      unloadEphRef, lookupLoaded, setLoaded, stopAllLoaded, playingCount,
      ephStatus, setEph, pauseEph, resolvedName, jsOrStr, truthyStr,
      jsDurationMs, jsLeZero, spritesFor, spriteStep, spriteLookup, init1,
      book1, hA, hB, hC, hX, invTrace]
    try norm_num

/-- Claim C5 (amended) — the function `startRepeatPlayback` computes
`duration = (end.audioEnd - start.audioStart) * 1000` from the
tap-ordered endpoints; whenever the duration is non-positive the start
fails: no ephemeral audio resource is created (the instance identifiers
are unchanged), no callback is scheduled, and `isRepeating` ends up
`false` — but the recorded endpoints are **retained**, not cleared (the
selector does not return to AwaitingStart; the next tap starts a fresh
selection instead, see C8). -/
theorem claim_C5_amended (snap : Snap) (sh eh : Hotspot) (s : EngineState)
    (a b : ℚ) (hsa : sh.audioStart = some a) (heb : eh.audioEnd = some b)
    (hle : b ≤ a) :
    (startRepeatPlayback snap sh eh s).isRepeating = false ∧
    (startRepeatPlayback snap sh eh s).pending = s.pending ∧
    (startRepeatPlayback snap sh eh s).ephs.map Prod.fst =
      s.ephs.map Prod.fst ∧
    (startRepeatPlayback snap sh eh s).repeatStartHotspot =
      s.repeatStartHotspot ∧
    (startRepeatPlayback snap sh eh s).repeatEndHotspot =
      s.repeatEndHotspot := by
  have hlz : jsLeZero (jsDurationMs eh.audioEnd sh.audioStart) = true := by
    rw [heb, hsa]
    simp only [jsDurationMs, jsLeZero, decide_eq_true_eq]
    nlinarith
  dsimp only [startRepeatPlayback]
  rcases href : s.repeatHowlRef with - | j <;>
    simp only [stopAllHowls_repeatHowlRef, href] <;>
    rcases hres : resolvedName s.book sh with - | f <;>
      simp only [stopAllHowls_book, hres, stopAllHowls_loaded,
        stopAllHowls_pending, stopAllHowls_ephs,
        stopAllHowls_repeatStartHotspot, stopAllHowls_repeatEndHotspot]
  · exact ⟨by trivial, by trivial, by simp [setEph_map_fst], by trivial,
      by trivial⟩
  · rcases hlook : lookupLoaded (stopAllLoaded s.loaded) f with - | v <;>
      simp only [hlz, if_true] <;>
      exact ⟨by trivial, by trivial, by simp [setEph_map_fst], by trivial,
        by trivial⟩
  · exact ⟨by trivial, by trivial, by simp [setEph_map_fst], by trivial,
      by trivial⟩
  · rcases hlook : lookupLoaded (stopAllLoaded s.loaded) f with - | v <;>
      simp only [hlz, if_true] <;>
      exact ⟨by trivial, by trivial, by simp [setEph_map_fst], by trivial,
        by trivial⟩

/-- Witness for C5 (amended): the concrete degenerate pair `hB`/`hA`. -/
theorem claim_C5_amended_witness :
    (startRepeatPlayback { isRepeatMode := true, repeatPaused := false }
      hB hA init1).isRepeating = false ∧
    (startRepeatPlayback { isRepeatMode := true, repeatPaused := false }
      hB hA init1).ephs.map Prod.fst = init1.ephs.map Prod.fst := by
  have h := claim_C5_amended { isRepeatMode := true, repeatPaused := false }
    hB hA init1 2 2 rfl rfl le_rfl
  exact ⟨h.1, h.2.2.1⟩

/-! ## Claim C2 — exitRepeatMode does not neutralise the gap timer -/

set_option maxHeartbeats 1600000 in
/-- Evidence for C2 being violated by the code: after `exitRepeatMode`
the repeat state is fully reset and the old ephemeral instance is
unloaded, but the inter-iteration `setTimeout(playSegment, 500)`
(line 933) was never stored in `currentTimeoutRef`, so it is still
pending; when it fires, `playSegment`'s guard reads the **captured**
`isRepeatMode`/`repeatPaused` of the render that started the loop (both
still saying "looping"), so a brand-new audio resource is created,
seeked and started although the engine shows repeat mode off — an
observable state change after exit, contradicting the stale-callback
immunity the guard comment (line 902) itself promises. -/
theorem claim_C2_stale_gap_timer :
    (run init1 exitDuringGapTrace).isRepeatMode = false ∧
    (run init1 exitDuringGapTrace).isRepeating = false ∧
    (run init1 exitDuringGapTrace).repeatHowlRef = none ∧
    (run init1 exitDuringGapTrace).ephs = [(1, EphStatus.unloaded)] ∧
    (run init1 exitDuringGapTrace).pending =
      [(4, Task.seg { snap := { isRepeatMode := true, repeatPaused := false },
                      startTime := some 1, duration := some 2000 })] ∧
    (run init1 zombieTrace).isRepeatMode = false ∧
    (run init1 zombieTrace).repeatHowlRef = some 5 ∧
    (run init1 zombieTrace).ephs =
      [(1, EphStatus.unloaded), (5, EphStatus.playing (some 1))] := by
  refine ⟨?_, ?_, ?_, ?_, ?_, ?_, ?_, ?_⟩ <;>
  · simp [run, step, fireTimer, runTask, startRepeatPlayback, playSegment,
      runLoad, runDurStop, runQueueAdvance, handleHotspotClick,
      playHotspotAudio, startRepeatMode, exitRepeatMode, pauseRepeat,
      resumeRepeat, spriteEnded, stopAllHowls, clearCurrentTimeout,
      unloadEphRef, lookupLoaded, setLoaded, stopAllLoaded, playingCount,
      ephStatus, setEph, pauseEph, resolvedName, jsOrStr, truthyStr,
      jsDurationMs, jsLeZero, spritesFor, spriteStep, spriteLookup, init1,
      book1, hA, hB, hC, hX, exitDuringGapTrace, zombieTrace]
    try norm_num
    try simp [setEph, setLoaded, pauseEph]

/-! ## Claim C3 — the connected-reading queue never advances -/

set_option maxHeartbeats 1600000 in
/-- Evidence for C3 being violated by the code: `hB` and `hC` are
appended FIFO while `hA` plays (that much of the claim holds), but the
Howl `onend` closure was created inside the `loadPdf` effect, so the
`handleNextInQueue` it calls reads the `audioQueue` **captured at load
time** (empty).  When the callback fires it sees an empty queue and does
nothing: the live queue still holds `[hB, hC]`, nothing is playing, and
no further callback is pending — `hB` never starts, so the playback
order is `A` alone, not `A, B, C`. -/
theorem claim_C3_stale_queue :
    (run initConn [Event.tap hA]).isPlaying = true ∧
    (run initConn [Event.tap hA]).loaded =
      [("a.mp3", some "A"), ("b.mp3", none)] ∧
    (run initConn [Event.tap hA, Event.tap hB, Event.tap hC]).audioQueue =
      [hB, hC] ∧
    (run initConn connTrace).audioQueue = [hB, hC] ∧
    (run initConn connTrace).isPlaying = false ∧
    (run initConn connTrace).loaded = [("a.mp3", none), ("b.mp3", none)] ∧
    (run initConn connTrace).pending = [] := by
  refine ⟨?_, ?_, ?_, ?_, ?_, ?_, ?_⟩ <;>
  · simp [run, step, fireTimer, runTask, startRepeatPlayback, playSegment,
      runLoad, runDurStop, runQueueAdvance, handleHotspotClick,
      playHotspotAudio, startRepeatMode, exitRepeatMode, pauseRepeat,
      resumeRepeat, spriteEnded, stopAllHowls, clearCurrentTimeout,
      unloadEphRef, lookupLoaded, setLoaded, stopAllLoaded, playingCount,
      ephStatus, setEph, pauseEph, resolvedName, jsOrStr, truthyStr,
      jsDurationMs, jsLeZero, spritesFor, spriteStep, spriteLookup, init1,
      initConn, book1, hA, hB, hC, hX, connTrace]
    try norm_num
    try simp [setEph, setLoaded, pauseEph]

/-! ## Claim C9 — resume after pause kills the loop instead of
restarting it -/

set_option maxHeartbeats 1600000 in
/-- Evidence for C9 being violated by the code: after the pause the
ephemeral instance is paused and `repeatPaused` is set.  `resumeRepeat`
(lines 859-865) calls `setRepeatPaused(false)` and then synchronously
`startRepeatPlayback`, but the `playSegment` guard (line 903) reads the
**captured** `repeatPaused` of the current render — still `true` — so
instead of restarting at `range.start.audioStart` the loop aborts: the
paused instance is unloaded, `isRepeating` ends `false`, no callback is
pending and nothing is playing.  The comment on line 861 ("on resume,
re-trigger loop playback") documents the intent the code fails to
meet. -/
theorem claim_C9_resume_dead :
    (run init1 pauseTrace).ephs = [(1, EphStatus.paused (some 1))] ∧
    (run init1 pauseTrace).repeatPaused = true ∧
    (run init1 resumeTrace).repeatPaused = false ∧
    (run init1 resumeTrace).isRepeating = false ∧
    (run init1 resumeTrace).repeatHowlRef = none ∧
    (run init1 resumeTrace).ephs = [(1, EphStatus.unloaded)] ∧
    (run init1 resumeTrace).pending = [] ∧
    (run init1 resumeTrace).loaded = [("a.mp3", none), ("b.mp3", none)] := by
  refine ⟨?_, ?_, ?_, ?_, ?_, ?_, ?_, ?_⟩ <;>
  · simp [run, step, fireTimer, runTask, startRepeatPlayback, playSegment,
      runLoad, runDurStop, runQueueAdvance, handleHotspotClick,
      playHotspotAudio, startRepeatMode, exitRepeatMode, pauseRepeat,
      resumeRepeat, spriteEnded, stopAllHowls, clearCurrentTimeout,
      unloadEphRef, lookupLoaded, setLoaded, stopAllLoaded, playingCount,
      ephStatus, setEph, pauseEph, resolvedName, jsOrStr, truthyStr,
      jsDurationMs, jsLeZero, spritesFor, spriteStep, spriteLookup, init1,
      book1, hA, hB, hC, hX, pauseTrace, resumeTrace]
    try norm_num
    try simp [setEph, setLoaded, pauseEph]

/-! ## Claim C10 — book-level audioFile fallback -/

/-- Counterexample to C10 as stated: the claim says the missing-asset
failure path is taken *only when neither* the hotspot's `audioFile` *nor*
the book default resolves to a loaded asset.  Here the book default
`b.mp3` **is** loaded, yet activating `hOwn` takes the failure path (a
complete no-op), because the source looks up only the single resolved
name `hotspot.audioFile || bookData?.audioFile` — a present-but-unloaded
hotspot file is not rescued by a loaded book default. -/
theorem claim_C10_counterexample :
    playHotspotAudio sOwn hOwn = sOwn ∧
    (playHotspotAudio sOwn hOwn).currentHotspot = none ∧
    resolvedName sOwn.book hOwn = some "a.mp3" ∧
    lookupLoaded sOwn.loaded "a.mp3" = none ∧
    sOwn.book.audioFile = some "b.mp3" ∧
    lookupLoaded sOwn.loaded "b.mp3" = some none := by
  refine ⟨by decide, by decide, by decide, by decide, by decide, by decide⟩

/-- Claim C10 (amended) — For every activation (normal playback and
repeat-loop start): when the hotspot's `audioFile` is falsy the engine
resolves the source to the book-level `audioFile` (part 1); the
missing-asset failure path is taken whenever the *single* resolved name
has no loaded asset — normal activation is then a no-op and a repeat
start resets `isRepeating` without scheduling anything (part 2); and
when the resolved name is loaded the activation proceeds past the
missing-asset path (the current hotspot is set) (part 3).  A loaded book
default does not rescue a hotspot whose own `audioFile` failed to
load. -/
theorem claim_C10_amended :
    (∀ (b : Book) (h : Hotspot), truthyStr h.audioFile = false →
      resolvedName b h =
        if truthyStr b.audioFile then b.audioFile else none) ∧
    (∀ (s : EngineState) (h : Hotspot) (f : String),
      resolvedName s.book h = some f → lookupLoaded s.loaded f = none →
      playHotspotAudio s h = s ∧
      ∀ (snap : Snap) (eh : Hotspot),
        (startRepeatPlayback snap h eh s).isRepeating = false ∧
        (startRepeatPlayback snap h eh s).pending = s.pending) ∧
    (∀ (s : EngineState) (h : Hotspot) (f : String),
      truthyStr h.id = true → resolvedName s.book h = some f →
      (lookupLoaded s.loaded f).isSome = true →
      (playHotspotAudio s h).currentHotspot = some h) := by
  refine ⟨?_, ?_, ?_⟩
  · intro b h hfalse
    simp [resolvedName, jsOrStr, hfalse]
  · intro s h f hres hmiss
    have hmiss2 : lookupLoaded (stopAllLoaded s.loaded) f = none := by
      rw [lookupLoaded_stopAllLoaded, hmiss]
      rfl
    constructor
    · unfold playHotspotAudio
      split
      · rfl
      · simp [hres, hmiss]
    · intro snap eh
      dsimp only [startRepeatPlayback]
      rcases href : s.repeatHowlRef with - | j <;>
        simp only [stopAllHowls_repeatHowlRef, href, stopAllHowls_book,
          hres, stopAllHowls_loaded, hmiss2] <;>
        exact ⟨by trivial, by simp⟩
  · intro s h f hid hres hload
    obtain ⟨v, hv⟩ := Option.isSome_iff_exists.mp hload
    unfold playHotspotAudio
    rw [if_neg (by simp [hid])]
    simp only [hres, hv]
    split <;> rfl

/-- Witness for C10 (amended): `hNoFile` resolves to the book default
`a.mp3` of the fixture, which is loaded, so the activation proceeds. -/
theorem claim_C10_amended_witness :
    resolvedName book1 hNoFile = some "a.mp3" ∧
    (playHotspotAudio init1 hNoFile).currentHotspot = some hNoFile := by
  constructor
  · rw [claim_C10_amended.1 book1 hNoFile rfl]
    decide
  · exact claim_C10_amended.2.2 init1 hNoFile "a.mp3" rfl (by decide)
      (by decide)

end TouchRead
